import Mathlib

/-!
Shallow embedding of `src/relay.py` (Hand Tracking WebSocket Relay).

The relay keeps two module-level Python sets, `unity_clients` (the
subscriber registry) and `browser_clients` (the publisher registry), and a
global counter `messages_forwarded`.  We model each Python set as a
`List Nat` of client identifiers carrying the set's iteration order; the
set invariant (no duplicate elements) appears as a `Nodup` hypothesis where
it matters.  The transport-level `await client.send(...)` is modelled by an
oracle `send : Nat → SendOutcome` giving the outcome of this broadcast's
send attempt for each client.
-/

namespace Relay

/-- Outcome of one `await client.send(message)`:
success, `websockets.exceptions.ConnectionClosed`, or any other exception
(the code treats the two failure kinds identically apart from logging). -/
inductive SendOutcome where
  | ok
  | connectionClosed
  | otherError
  deriving DecidableEq, Repr

/-- Whether a send outcome is a success. -/
def SendOutcome.isOk : SendOutcome → Bool
  | .ok => true
  | _ => false

namespace PySet

/-- Python `set.add`: no-op when the element is present, otherwise the
element joins the iteration order at the end. -/
def add (l : List Nat) (c : Nat) : List Nat :=
  if c ∈ l then l else l ++ [c]

/-- Python `set.discard`: removes the element if present, no-op otherwise,
never raises. -/
def discard (l : List Nat) (c : Nat) : List Nat :=
  l.erase c

end PySet

/-- The relay's module-level mutable state (`relay.py` lines 33-38):
the two connection sets and the forwarded-message counter. -/
structure RelayState where
  unity_clients : List Nat
  browser_clients : List Nat
  messages_forwarded : Nat
  deriving DecidableEq, Repr

/-- Observable actions a piece of relay code performs on connections. -/
inductive Event where
  | sendAttempt (c : Nat) (m : String)
  | handshakeSend (c : Nat) (fields : List (String × String))
  | registryAdd (c : Nat)
  | registryRemove (c : Nat)
  | closeChannel (c : Nat)
  deriving DecidableEq, Repr

/-- Whether an event is a handshake send. -/
def Event.isHandshake : Event → Bool
  | .handshakeSend _ _ => true
  | _ => false

/-- The `for client in unity_clients:` loop body of `broadcast_to_unity`
(`relay.py` lines 49-57), run over the clients in iteration order with no
interference from other tasks.  Arguments: clients still to visit, the
current value of `messages_forwarded`, and the `dead` set accumulated so
far.  Returns the final counter value, the final `dead` set (in insertion
order) and the trace of send attempts. -/
def bcLoop (send : Nat → SendOutcome) (m : String) :
    List Nat → Nat → List Nat → Nat × List Nat × List Event
  | [], fwd, dead => (fwd, dead, [])
  | c :: rest, fwd, dead =>
    match send c with
    | .ok =>
      let r := bcLoop send m rest (fwd + 1) dead
      (r.1, r.2.1, Event.sendAttempt c m :: r.2.2)
    | .connectionClosed =>
      let r := bcLoop send m rest fwd (dead ++ [c])
      (r.1, r.2.1, Event.sendAttempt c m :: r.2.2)
    | .otherError =>
      let r := bcLoop send m rest fwd (dead ++ [c])
      (r.1, r.2.1, Event.sendAttempt c m :: r.2.2)

/-- `broadcast_to_unity` (`relay.py` lines 42-61), in the run where no other
task touches the registries during the call: early return on an empty
registry, one send attempt per registered client, counter increment on each
success, failed clients collected in `dead` and discarded from
`unity_clients` only after the loop.  Returns the new state and the trace
of events the call performs. -/
def broadcast_to_unity (send : Nat → SendOutcome) (message : String)
    (st : RelayState) : RelayState × List Event :=
  if st.unity_clients.isEmpty then (st, [])
  else
    let r := bcLoop send message st.unity_clients st.messages_forwarded []
    ({ st with
        messages_forwarded := r.1,
        unity_clients := r.2.1.foldl PySet.discard st.unity_clients },
     r.2.2)

/-- An action another task of the event loop may perform while
`broadcast_to_unity` is suspended inside `await client.send(...)`:
a new Unity handler running `unity_clients.add(websocket)`
(`relay.py` line 84) or a Unity handler's cleanup running
`unity_clients.discard(websocket)` (line 103).  `idle` means no other
task touched the registry during that suspension. -/
inductive EnvAct where
  | idle
  | connectUnity (c : Nat)
  | disconnectUnity (c : Nat)
  deriving DecidableEq, Repr

/-- Effect of an interleaved environment action on `unity_clients`. -/
def EnvAct.apply : EnvAct → List Nat → List Nat
  | .idle, l => l
  | .connectUnity c, l => PySet.add l c
  | .disconnectUnity c, l => PySet.discard l c

/-- The exception CPython raises from a set iterator's next step after the
set's size changed since the iterator was created. -/
def runtimeErrSetChanged : String := "RuntimeError: Set changed size during iteration"

/-- The `for client in unity_clients:` loop with interleaving: the `for`
statement iterates the LIVE set (the code takes no snapshot copy), and each
`await client.send(...)` is a suspension point where one `EnvAct` from
`envs` runs.  CPython's set iterator records the set's size at creation
(`n0`); every subsequent step first compares the current size against `n0`
and raises `RuntimeError` on mismatch — before checking for exhaustion, so
even a mutation during the last element's `await` raises.  The model is
exact up to that first size change: while the size is unchanged the live
set still holds exactly its initial elements, so iteration follows the
initial order `pending`, and after a size change the iterator raises before
yielding anything further.  The error is raised by the iterator itself,
outside the `try` of the loop body, so it escapes `broadcast_to_unity`.
Arguments: `pending` clients not yet yielded, `envs` the environment action
at each successive suspension, `cur` the live set, then the counter and
`dead` accumulator as in `bcLoop`. -/
def bcLoopConc (send : Nat → SendOutcome) (n0 : Nat) :
    List Nat → List EnvAct → List Nat → Nat → List Nat →
    Except String (List Nat × Nat × List Nat)
  | [], _, cur, fwd, dead =>
    if cur.length ≠ n0 then .error runtimeErrSetChanged
    else .ok (cur, fwd, dead)
  | c :: rest, envs, cur, fwd, dead =>
    if cur.length ≠ n0 then .error runtimeErrSetChanged
    else
      let acc : Nat × List Nat :=
        match send c with
        | .ok => (fwd + 1, dead)
        | .connectionClosed => (fwd, dead ++ [c])
        | .otherError => (fwd, dead ++ [c])
      match envs with
      | [] => bcLoopConc send n0 rest [] cur acc.1 acc.2
      | e :: es => bcLoopConc send n0 rest es (e.apply cur) acc.1 acc.2

/-- `broadcast_to_unity` under interleaving: other tasks may mutate
`unity_clients` at each of the call's suspension points (one `EnvAct` per
send attempt).  `Except.error` means an exception escapes to the caller
(the browser handler's read loop); `Except.ok` returns the state after the
deferred `discard` loop, which itself has no suspension points. -/
def broadcast_to_unity_conc (send : Nat → SendOutcome) (_message : String)
    (envs : List EnvAct) (st : RelayState) : Except String RelayState :=
  if st.unity_clients.isEmpty then .ok st
  else
    match bcLoopConc send st.unity_clients.length st.unity_clients envs
        st.unity_clients st.messages_forwarded [] with
    | .error e => .error e
    | .ok r =>
      .ok { st with
              messages_forwarded := r.2.1,
              unity_clients := r.2.2.foldl PySet.discard r.1 }

/-- Modelled from the spec (§4.2 `snapshot()` and §9 snapshot-then-mutate):
the broadcast the spec describes, which first takes an immutable snapshot
copy of the registry and iterates that copy, so interleaved registry
mutations cannot affect the iteration and no iterator error can arise.
Used only to compare against `broadcast_to_unity_conc`, which embeds the
code as written. -/
def broadcast_spec_snapshot (send : Nat → SendOutcome) (message : String)
    (envs : List EnvAct) (st : RelayState) : Except String RelayState :=
  if st.unity_clients.isEmpty then .ok st
  else
    let snapshot := st.unity_clients
    let live := envs.foldl (fun l e => e.apply l) st.unity_clients
    let r := bcLoop send message snapshot st.messages_forwarded []
    .ok { st with
            messages_forwarded := r.1,
            unity_clients := r.2.1.foldl PySet.discard live }

/-- Role of a connection, decided once from its request path. -/
inductive Role where
  | publisher
  | subscriber
  deriving DecidableEq, Repr

/-- The routing decision of `handler` (`relay.py` line 69):
`if path == "/browser":` takes the browser (publisher) branch, `else:` the
Unity (subscriber) branch.  Total, with no error case. -/
def route (path : String) : Role :=
  if path = "/browser" then .publisher else .subscriber

/-- The handshake object the Unity branch sends (`relay.py` lines 89-93),
as its field list in source order. -/
def relay_ready_fields : List (String × String) :=
  [("type", "relay_ready"),
   ("message", "Hand tracking relay connected"),
   ("version", "1.0")]

/-- Phase a handler is in after its registration code has run. -/
inductive Phase where
  | idleWait
  | readLoop
  deriving DecidableEq, Repr

/-- The Unity (subscriber) registration sequence (`relay.py` lines 84-95):
`unity_clients.add(websocket)`, then `try: await websocket.send(json.dumps(
relay_ready))` with `except Exception: pass`, after which the handler
proceeds to `await websocket.wait_closed()`.  `hs` is the outcome of the
handshake send attempt; the bare `except Exception: pass` swallows every
failure, so no branch raises and every branch proceeds to the idle wait
with the connection still registered. -/
def unity_connect (ws : Nat) (hs : SendOutcome) (st : RelayState) :
    Except String (RelayState × Phase) × List Event :=
  let st1 := { st with unity_clients := PySet.add st.unity_clients ws }
  let trace := [Event.registryAdd ws, Event.handshakeSend ws relay_ready_fields]
  match hs with
  | .ok => (.ok (st1, .idleWait), trace)
  | .connectionClosed => (.ok (st1, .idleWait), trace)
  | .otherError => (.ok (st1, .idleWait), trace)

/-- How a handler's main `try` block terminates. -/
inductive ExitMode where
  | gracefulClose
  | connectionClosedError
  | otherError
  deriving DecidableEq, Repr

/-- End of the Unity branch (`relay.py` lines 97-104): `await
websocket.wait_closed()` returns, or raises `ConnectionClosed` (caught and
passed), or raises some other exception (uncaught); the `finally` block
runs `unity_clients.discard(websocket)` on every one of those paths before
the handler exits.  Returns the state after cleanup, the trace, and
whether an exception escapes the handler. -/
def unity_handler_exit (ws : Nat) (mode : ExitMode) (st : RelayState) :
    RelayState × List Event × Bool :=
  let escapes :=
    match mode with
    | .gracefulClose => false
    | .connectionClosedError => false
    | .otherError => true
  ({ st with unity_clients := PySet.discard st.unity_clients ws },
   [Event.registryRemove ws], escapes)

/-- End of the browser branch (`relay.py` lines 73-80): the `async for`
read loop ends normally on a graceful close, or `ConnectionClosed` is
raised (caught and passed), or another exception propagates; the `finally`
block runs `browser_clients.discard(websocket)` on every path.  `st` is
the relay state at the moment the loop terminates (the loop itself mutates
state only through `broadcast_to_unity`). -/
def browser_handler_exit (ws : Nat) (mode : ExitMode) (st : RelayState) :
    RelayState × List Event × Bool :=
  let escapes :=
    match mode with
    | .gracefulClose => false
    | .connectionClosedError => false
    | .otherError => true
  ({ st with browser_clients := PySet.discard st.browser_clients ws },
   [Event.registryRemove ws], escapes)

/-- The browser (publisher) registration step (`relay.py` line 71):
`browser_clients.add(websocket)`, then the handler enters the read loop. -/
def browser_connect (ws : Nat) (st : RelayState) :
    (RelayState × Phase) × List Event :=
  (({ st with browser_clients := PySet.add st.browser_clients ws }, .readLoop),
   [Event.registryAdd ws])

/-- One round of `print_stats` (`relay.py` lines 107-117): reads the
counter and the two registry sizes and returns what it logs; it assigns
nothing, so it is a pure function of the state. -/
def print_stats (st : RelayState) : Nat × Nat × Nat :=
  (st.messages_forwarded, st.browser_clients.length, st.unity_clients.length)

/-! ### Helper lemmas about the loop and the set operations -/

/-- The final counter value of the loop: the starting value plus one per
successful send. -/
theorem bcLoop_fwd (send : Nat → SendOutcome) (m : String) (clients : List Nat) :
    ∀ (fwd : Nat) (dead : List Nat),
      (bcLoop send m clients fwd dead).1 =
        fwd + clients.countP (fun c => (send c).isOk) := by
  induction clients with
  | nil => intro fwd dead; simp [bcLoop]
  | cons c rest ih =>
    intro fwd dead
    cases h : send c with
    | ok =>
      simp [bcLoop, h, ih, SendOutcome.isOk, List.countP_cons]
      omega
    | connectionClosed =>
      simp [bcLoop, h, ih, SendOutcome.isOk, List.countP_cons]
    | otherError =>
      simp [bcLoop, h, ih, SendOutcome.isOk, List.countP_cons]

/-- The final `dead` set of the loop: the accumulator followed by the
clients whose send failed, in visit order. -/
theorem bcLoop_dead (send : Nat → SendOutcome) (m : String) (clients : List Nat) :
    ∀ (fwd : Nat) (dead : List Nat),
      (bcLoop send m clients fwd dead).2.1 =
        dead ++ clients.filter (fun c => !(send c).isOk) := by
  induction clients with
  | nil => intro fwd dead; simp [bcLoop]
  | cons c rest ih =>
    intro fwd dead
    cases h : send c <;>
      simp [bcLoop, h, ih, SendOutcome.isOk, List.filter_cons]

/-- The loop attempts exactly one send per visited client, in order,
passing the message through verbatim. -/
theorem bcLoop_trace (send : Nat → SendOutcome) (m : String) (clients : List Nat) :
    ∀ (fwd : Nat) (dead : List Nat),
      (bcLoop send m clients fwd dead).2.2 =
        clients.map (fun c => Event.sendAttempt c m) := by
  induction clients with
  | nil => intro fwd dead; simp [bcLoop]
  | cons c rest ih =>
    intro fwd dead
    cases h : send c <;> simp [bcLoop, h, ih]

/-- The deferred `for d in dead: unity_clients.discard(d)` loop computes a
list difference. -/
theorem foldl_discard_eq_diff (l ds : List Nat) :
    List.foldl PySet.discard l ds = l.diff ds :=
  (List.diff_eq_foldl l ds).symm

/-- Membership in a Python-set `add`. -/
theorem mem_PySet_add (l : List Nat) (c d : Nat) :
    d ∈ PySet.add l c ↔ d = c ∨ d ∈ l := by
  by_cases h : c ∈ l
  · simp only [PySet.add, if_pos h]
    constructor
    · exact Or.inr
    · rintro (rfl | hd)
      · exact h
      · exact hd
  · simp only [PySet.add, if_neg h, List.mem_append, List.mem_singleton]
    tauto

/-- The broadcast trace: one send attempt per client registered at the
start of the call, in iteration order, message unchanged. -/
theorem broadcast_trace_eq (send : Nat → SendOutcome) (m : String) (st : RelayState) :
    (broadcast_to_unity send m st).2 =
      st.unity_clients.map (fun c => Event.sendAttempt c m) := by
  by_cases h : st.unity_clients.isEmpty
  · rw [List.isEmpty_iff] at h
    simp [broadcast_to_unity, h]
  · simp [broadcast_to_unity, h, bcLoop_trace]

/-- The broadcast counter effect: plus one per successful send. -/
theorem broadcast_forwarded_eq (send : Nat → SendOutcome) (m : String) (st : RelayState) :
    (broadcast_to_unity send m st).1.messages_forwarded =
      st.messages_forwarded + st.unity_clients.countP (fun c => (send c).isOk) := by
  by_cases h : st.unity_clients.isEmpty
  · rw [List.isEmpty_iff] at h
    simp [broadcast_to_unity, h]
  · simp [broadcast_to_unity, h, bcLoop_fwd]

/-- Broadcast never touches the publisher registry. -/
theorem broadcast_browser_eq (send : Nat → SendOutcome) (m : String) (st : RelayState) :
    (broadcast_to_unity send m st).1.browser_clients = st.browser_clients := by
  by_cases h : st.unity_clients.isEmpty <;> simp [broadcast_to_unity, h]

/-- The subscriber registry after a broadcast: exactly the clients whose
send succeeded, in their original order (failed clients pruned, nobody
else touched). -/
theorem broadcast_unity_clients_eq (send : Nat → SendOutcome) (m : String)
    (st : RelayState) (hnd : st.unity_clients.Nodup) :
    (broadcast_to_unity send m st).1.unity_clients =
      st.unity_clients.filter (fun c => (send c).isOk) := by
  by_cases h : st.unity_clients.isEmpty
  · rw [List.isEmpty_iff] at h
    simp [broadcast_to_unity, h]
  · have step :
        (broadcast_to_unity send m st).1.unity_clients =
          st.unity_clients.diff
            (st.unity_clients.filter (fun c => !(send c).isOk)) := by
      simp [broadcast_to_unity, h, bcLoop_dead, foldl_discard_eq_diff]
    rw [step, hnd.diff_eq_filter]
    refine List.filter_congr ?_
    intro x hx
    cases hq : (send x).isOk <;> simp [List.mem_filter, hx, hq]

/-- Counting one client's send attempts in a trace of send attempts. -/
theorem count_sendAttempt_map (l : List Nat) (c : Nat) (m : String) :
    (l.map (fun d => Event.sendAttempt d m)).count (Event.sendAttempt c m) =
      l.count c := by
  induction l with
  | nil => simp
  | cons d rest ih =>
    simp only [List.map_cons, List.count_cons, ih]
    by_cases h : d = c <;> simp [h]

/-! ### Sample inputs used by the witness theorems -/

/-- A sample relay state: subscribers 1 and 2, publisher 5, counter 3. -/
def stA : RelayState :=
  { unity_clients := [1, 2], browser_clients := [5], messages_forwarded := 3 }

/-- A send oracle on which every send succeeds. -/
def sendAllOk : Nat → SendOutcome := fun _ => .ok

/-- A send oracle on which exactly client 2's send fails. -/
def sendFail2 : Nat → SendOutcome :=
  fun c => if c = 2 then .connectionClosed else .ok

/-! ### The claims -/

/-- Claim C1: for every message `m` and every subscriber-registry state
with `N ≥ 0` members, `broadcast_to_unity` attempts delivery of `m`
verbatim to exactly the clients registered at the start of the call —
the trace is one send attempt per registered client in order, and each
client's attempt appears exactly once; when the registry is empty the call
is a no-op returning the state (counter included) unchanged and an empty
trace. -/
theorem C1_broadcast_exactly_once (send : Nat → SendOutcome) (m : String)
    (st : RelayState) (hnd : st.unity_clients.Nodup) :
    ((broadcast_to_unity send m st).2
        = st.unity_clients.map (fun c => Event.sendAttempt c m)) ∧
    (∀ c : Nat, (broadcast_to_unity send m st).2.count (Event.sendAttempt c m)
        = if c ∈ st.unity_clients then 1 else 0) ∧
    (st.unity_clients = [] → broadcast_to_unity send m st = (st, [])) := by
  refine ⟨broadcast_trace_eq send m st, ?_, ?_⟩
  · intro c
    rw [broadcast_trace_eq, count_sendAttempt_map]
    by_cases hc : c ∈ st.unity_clients
    · simp [hc, List.count_eq_one_of_mem hnd hc]
    · simp [hc, List.count_eq_zero_of_not_mem hc]
  · intro h
    simp [broadcast_to_unity, h]

/-- Witness for C1 at a concrete input: subscribers `[1, 2]`, all sends
succeeding. -/
theorem C1_broadcast_exactly_once_witness :
    stA.unity_clients.Nodup ∧
    (((broadcast_to_unity sendAllOk "hello" stA).2
        = stA.unity_clients.map (fun c => Event.sendAttempt c "hello")) ∧
     (∀ c : Nat,
        (broadcast_to_unity sendAllOk "hello" stA).2.count
            (Event.sendAttempt c "hello")
          = if c ∈ stA.unity_clients then 1 else 0) ∧
     (stA.unity_clients = [] →
        broadcast_to_unity sendAllOk "hello" stA = (stA, []))) :=
  ⟨by decide, C1_broadcast_exactly_once sendAllOk "hello" stA (by decide)⟩

/-- Claim C2: when exactly one registered subscriber's send fails, every
other registered subscriber is still sent the message (its send attempt is
in the trace — and by hypothesis that send succeeds), and the failed
subscriber is absent from the registry when the call returns: the final
registry is the initial one with the failed client erased. -/
theorem C2_single_failure_isolation (send : Nat → SendOutcome) (m : String)
    (st : RelayState) (c : Nat) (hnd : st.unity_clients.Nodup)
    (hc : c ∈ st.unity_clients)
    (hfail : (send c).isOk = false)
    (hothers : ∀ d ∈ st.unity_clients, d ≠ c → (send d).isOk = true) :
    (∀ d ∈ st.unity_clients, d ≠ c →
        Event.sendAttempt d m ∈ (broadcast_to_unity send m st).2) ∧
    (c ∉ (broadcast_to_unity send m st).1.unity_clients) ∧
    ((broadcast_to_unity send m st).1.unity_clients
        = st.unity_clients.erase c) := by
  refine ⟨?_, ?_, ?_⟩
  · intro d hd _
    rw [broadcast_trace_eq]
    exact List.mem_map_of_mem _ hd
  · rw [broadcast_unity_clients_eq send m st hnd]
    simp [List.mem_filter, hfail]
  · rw [broadcast_unity_clients_eq send m st hnd, hnd.erase_eq_filter]
    refine List.filter_congr ?_
    intro x hx
    by_cases hxc : x = c
    · subst hxc
      simp [hfail]
    · simp [hothers x hx hxc, hxc]

/-- Witness for C2 at a concrete input: subscribers `[1, 2]`, client 2's
send raising `ConnectionClosed`, client 1's succeeding. -/
theorem C2_single_failure_isolation_witness :
    stA.unity_clients.Nodup ∧ 2 ∈ stA.unity_clients ∧
    (sendFail2 2).isOk = false ∧
    (∀ d ∈ stA.unity_clients, d ≠ 2 → (sendFail2 d).isOk = true) ∧
    ((∀ d ∈ stA.unity_clients, d ≠ 2 →
        Event.sendAttempt d "ping" ∈ (broadcast_to_unity sendFail2 "ping" stA).2) ∧
     (2 ∉ (broadcast_to_unity sendFail2 "ping" stA).1.unity_clients) ∧
     ((broadcast_to_unity sendFail2 "ping" stA).1.unity_clients
        = stA.unity_clients.erase 2)) :=
  ⟨by decide, by decide, by decide, by decide,
   C2_single_failure_isolation sendFail2 "ping" stA 2
     (by decide) (by decide) (by decide) (by decide)⟩

/-- Claim C3 is a code bug.  The per-recipient half is true: every
exception a `client.send` raises is caught inside the loop body
(`except ConnectionClosed` / `except Exception`, lines 53-57).  But the
claim's concurrency half fails: the `for` statement iterates the live
`unity_clients` set, so when another task adds or removes a Unity client
while `broadcast_to_unity` is suspended in `await client.send(...)`, the
set iterator's next step raises `RuntimeError: Set changed size during
iteration` — outside the per-send `try`, so it escapes to the caller.
First conjunct: broadcasting to the one-subscriber registry `[1]` with
every send succeeding raises once a second subscriber connects during the
send.  Second conjunct: the identical call with no interference returns
normally.  Third conjunct: a send failure alone is contained (no error,
failed client pruned). -/
theorem C3_registry_mutation_escapes_broadcast :
    (broadcast_to_unity_conc (fun _ => SendOutcome.ok) "msg"
        [EnvAct.connectUnity 2] ⟨[1], [], 0⟩
      = Except.error runtimeErrSetChanged) ∧
    (broadcast_to_unity_conc (fun _ => SendOutcome.ok) "msg"
        [EnvAct.idle] ⟨[1], [], 0⟩
      = Except.ok ⟨[1], [], 1⟩) ∧
    (broadcast_to_unity_conc (fun _ => SendOutcome.connectionClosed) "msg"
        [EnvAct.idle] ⟨[1], [], 0⟩
      = Except.ok ⟨[], [], 0⟩) :=
  ⟨rfl, rfl, rfl⟩

/-- Claim C4 is a code bug.  The code does collect failed recipients in
`dead` during the pass and discards them only after the loop; but it does
NOT iterate a snapshot copy — `for client in unity_clients:` (line 49)
iterates the live mutable set, so a registry mutation by another task
mid-broadcast corrupts the iteration.  First conjunct: with subscribers
`[1, 2]` and all sends succeeding, a disconnect of client 2 (its handler's
`unity_clients.discard`) during the send to client 1 makes the code raise
`RuntimeError`.  Second conjunct: the snapshot-then-mutate broadcast the
spec describes completes the same scenario normally, delivering to both
snapshot members and ending with registry `[1]` and counter 2. -/
theorem C4_no_snapshot_iteration :
    (broadcast_to_unity_conc (fun _ => SendOutcome.ok) "x"
        [EnvAct.disconnectUnity 2] ⟨[1, 2], [], 0⟩
      = Except.error runtimeErrSetChanged) ∧
    (broadcast_spec_snapshot (fun _ => SendOutcome.ok) "x"
        [EnvAct.disconnectUnity 2] ⟨[1, 2], [], 0⟩
      = Except.ok ⟨[1], [], 2⟩) :=
  ⟨rfl, rfl⟩

/-- Claim C5: the forwarded-message counter is monotonically non-decreasing
and is owned by the broadcast engine: a broadcast raises it by exactly one
per successful send (so a failed send leaves it unchanged), and every
other modelled operation — subscriber registration (with any handshake
outcome), publisher registration, either handler's cleanup on any exit
mode, and a `print_stats` round (which merely reads it) — leaves it
exactly as it was. -/
theorem C5_counter_monotone_and_owned (send : Nat → SendOutcome) (m : String)
    (st : RelayState) (ws : Nat) (hs : SendOutcome) (mode : ExitMode) :
    ((broadcast_to_unity send m st).1.messages_forwarded
        = st.messages_forwarded
            + st.unity_clients.countP (fun c => (send c).isOk)) ∧
    (st.messages_forwarded
        ≤ (broadcast_to_unity send m st).1.messages_forwarded) ∧
    (((unity_connect ws hs st).1.map (fun r => r.1.messages_forwarded))
        = Except.ok st.messages_forwarded) ∧
    ((browser_connect ws st).1.1.messages_forwarded = st.messages_forwarded) ∧
    ((unity_handler_exit ws mode st).1.messages_forwarded
        = st.messages_forwarded) ∧
    ((browser_handler_exit ws mode st).1.messages_forwarded
        = st.messages_forwarded) ∧
    ((print_stats st).1 = st.messages_forwarded) := by
  refine ⟨broadcast_forwarded_eq send m st, ?_, ?_, rfl, rfl, rfl, rfl⟩
  · rw [broadcast_forwarded_eq]
    omega
  · cases hs <;> rfl

/-- Witness for C5 at a concrete input: state `stA`, client 2's send
failing, subscriber 7 connecting with a failed handshake, exits by abrupt
close. -/
theorem C5_counter_monotone_and_owned_witness :
    ((broadcast_to_unity sendFail2 "m" stA).1.messages_forwarded
        = stA.messages_forwarded
            + stA.unity_clients.countP (fun c => (sendFail2 c).isOk)) ∧
    (stA.messages_forwarded
        ≤ (broadcast_to_unity sendFail2 "m" stA).1.messages_forwarded) ∧
    (((unity_connect 7 SendOutcome.otherError stA).1.map
        (fun r => r.1.messages_forwarded))
        = Except.ok stA.messages_forwarded) ∧
    ((browser_connect 7 stA).1.1.messages_forwarded
        = stA.messages_forwarded) ∧
    ((unity_handler_exit 7 ExitMode.connectionClosedError stA).1.messages_forwarded
        = stA.messages_forwarded) ∧
    ((browser_handler_exit 7 ExitMode.connectionClosedError stA).1.messages_forwarded
        = stA.messages_forwarded) ∧
    ((print_stats stA).1 = stA.messages_forwarded) :=
  C5_counter_monotone_and_owned sendFail2 "m" stA 7
    SendOutcome.otherError ExitMode.connectionClosedError

/-- Claim C6: routing is a total function of the path with no error case —
`route p` is `publisher` exactly when `p = "/browser"`, and `subscriber`
exactly when it is any other path (the root path included). -/
theorem C6_routing_total_function (p : String) :
    (route p = Role.publisher ↔ p = "/browser") ∧
    (route p = Role.subscriber ↔ p ≠ "/browser") := by
  by_cases h : p = "/browser" <;> simp [route, h]

/-- Witness for C6 at concrete paths: the root path routes to Subscriber. -/
theorem C6_routing_total_function_witness :
    (route "/" = Role.publisher ↔ "/" = "/browser") ∧
    (route "/" = Role.subscriber ↔ "/" ≠ "/browser") :=
  C6_routing_total_function "/"

/-- Claim C7: for every subscriber connection, the registration sequence
emits exactly one handshake send, immediately after the registry add; the
handshake object carries `"type": "relay_ready"`, a `"message"` string and
`"version": "1.0"`; and whatever the handshake send's outcome — success,
`ConnectionClosed`, or any other exception — the sequence raises nothing,
the connection is still registered, and it proceeds to the idle wait. -/
theorem C7_subscriber_handshake (ws : Nat) (hs : SendOutcome)
    (st : RelayState) :
    ((unity_connect ws hs st).2
        = [Event.registryAdd ws,
           Event.handshakeSend ws relay_ready_fields]) ∧
    ((unity_connect ws hs st).2.countP Event.isHandshake = 1) ∧
    (("type", "relay_ready") ∈ relay_ready_fields ∧
     ("version", "1.0") ∈ relay_ready_fields ∧
     ∃ s, ("message", s) ∈ relay_ready_fields) ∧
    (∃ st1, (unity_connect ws hs st).1 = Except.ok (st1, Phase.idleWait) ∧
        ws ∈ st1.unity_clients) := by
  refine ⟨?_, ?_, ⟨?_, ?_, ⟨"Hand tracking relay connected", ?_⟩⟩, ?_⟩
  · cases hs <;> rfl
  · cases hs <;> rfl
  · simp [relay_ready_fields]
  · simp [relay_ready_fields]
  · simp [relay_ready_fields]
  · refine ⟨{ st with unity_clients := PySet.add st.unity_clients ws }, ?_, ?_⟩
    · cases hs <;> rfl
    · exact (mem_PySet_add st.unity_clients ws ws).2 (Or.inl rfl)

/-- Witness for C7 at a concrete input: subscriber 7 joining `stA` with a
handshake send that raises a non-`ConnectionClosed` exception. -/
theorem C7_subscriber_handshake_witness :
    ((unity_connect 7 SendOutcome.otherError stA).2
        = [Event.registryAdd 7,
           Event.handshakeSend 7 relay_ready_fields]) ∧
    ((unity_connect 7 SendOutcome.otherError stA).2.countP Event.isHandshake = 1) ∧
    (("type", "relay_ready") ∈ relay_ready_fields ∧
     ("version", "1.0") ∈ relay_ready_fields ∧
     ∃ s, ("message", s) ∈ relay_ready_fields) ∧
    (∃ st1, (unity_connect 7 SendOutcome.otherError stA).1
          = Except.ok (st1, Phase.idleWait) ∧
        7 ∈ st1.unity_clients) :=
  C7_subscriber_handshake 7 SendOutcome.otherError stA

/-- Claim C8: on every way a handler terminates — graceful close, abrupt
close (`ConnectionClosed`), or an unrecoverable other error — the
`finally` cleanup removes the connection from the registry that holds it
before the handler exits, and the trace contains that deregistration
exactly once; the other role's registry is untouched. -/
theorem C8_cleanup_on_every_exit (ws : Nat) (mode : ExitMode)
    (st : RelayState) (hu : st.unity_clients.Nodup)
    (hb : st.browser_clients.Nodup) :
    (ws ∉ (unity_handler_exit ws mode st).1.unity_clients ∧
     (unity_handler_exit ws mode st).2.1.count (Event.registryRemove ws) = 1 ∧
     (unity_handler_exit ws mode st).1.browser_clients
        = st.browser_clients) ∧
    (ws ∉ (browser_handler_exit ws mode st).1.browser_clients ∧
     (browser_handler_exit ws mode st).2.1.count (Event.registryRemove ws) = 1 ∧
     (browser_handler_exit ws mode st).1.unity_clients
        = st.unity_clients) := by
  refine ⟨⟨?_, ?_, rfl⟩, ?_, ?_, rfl⟩
  · intro hmem
    have h := (hu.mem_erase_iff).1 hmem
    exact h.1 rfl
  · simp [unity_handler_exit, List.count_cons]
  · intro hmem
    have h := (hb.mem_erase_iff).1 hmem
    exact h.1 rfl
  · simp [browser_handler_exit, List.count_cons]

/-- Witness for C8 at a concrete input: connection 2 leaving `stA` on an
unrecoverable error. -/
theorem C8_cleanup_on_every_exit_witness :
    stA.unity_clients.Nodup ∧ stA.browser_clients.Nodup ∧
    ((2 ∉ (unity_handler_exit 2 ExitMode.otherError stA).1.unity_clients ∧
      (unity_handler_exit 2 ExitMode.otherError stA).2.1.count
          (Event.registryRemove 2) = 1 ∧
      (unity_handler_exit 2 ExitMode.otherError stA).1.browser_clients
        = stA.browser_clients) ∧
     (2 ∉ (browser_handler_exit 2 ExitMode.otherError stA).1.browser_clients ∧
      (browser_handler_exit 2 ExitMode.otherError stA).2.1.count
          (Event.registryRemove 2) = 1 ∧
      (browser_handler_exit 2 ExitMode.otherError stA).1.unity_clients
        = stA.unity_clients)) :=
  ⟨by decide, by decide,
   C8_cleanup_on_every_exit 2 ExitMode.otherError stA (by decide) (by decide)⟩

/-- Claim C9: registry mutation is idempotent at the set level — adding a
present element returns the set itself, an add never introduces a
duplicate, removing an absent element is a no-op, and a double removal
equals a single removal; all four operations are total functions, so none
can raise. -/
theorem C9_registry_idempotence (l : List Nat) (c : Nat) (hnd : l.Nodup) :
    (c ∈ l → PySet.add l c = l) ∧
    (PySet.add l c).Nodup ∧
    (c ∉ l → PySet.discard l c = l) ∧
    (PySet.discard (PySet.discard l c) c = PySet.discard l c) := by
  refine ⟨?_, ?_, ?_, ?_⟩
  · intro h
    simp [PySet.add, h]
  · by_cases h : c ∈ l
    · simpa [PySet.add, h] using hnd
    · simp only [PySet.add, if_neg h, List.nodup_append, List.nodup_cons]
      exact ⟨hnd, by simp, by simpa [List.disjoint_singleton] using h⟩
  · intro h
    simp [PySet.discard, List.erase_of_not_mem h]
  · have h : c ∉ l.erase c := fun hmem => ((hnd.mem_erase_iff).1 hmem).1 rfl
    simp [PySet.discard, List.erase_of_not_mem h]

/-- Witness for C9 at a concrete input: the two-element subscriber set. -/
theorem C9_registry_idempotence_witness :
    ([1, 2] : List Nat).Nodup ∧
    ((2 ∈ ([1, 2] : List Nat) → PySet.add [1, 2] 2 = [1, 2]) ∧
     (PySet.add [1, 2] 2).Nodup ∧
     (2 ∉ ([1, 2] : List Nat) → PySet.discard [1, 2] 2 = [1, 2]) ∧
     (PySet.discard (PySet.discard [1, 2] 2) 2 = PySet.discard [1, 2] 2)) :=
  ⟨by decide, C9_registry_idempotence [1, 2] 2 (by decide)⟩

/-- Claim C10: the frame of a broadcast — the publisher registry is
untouched, the subscriber registry afterwards is exactly the clients whose
send succeeded (so every surviving subscriber keeps its membership and
failed ones are merely dropped), the counter rises by the success count,
and the trace contains nothing but send attempts of the broadcast message:
in particular broadcast closes no channel and registers no one. -/
theorem C10_broadcast_frame (send : Nat → SendOutcome) (m : String)
    (st : RelayState) (hnd : st.unity_clients.Nodup) :
    ((broadcast_to_unity send m st).1.browser_clients
        = st.browser_clients) ∧
    ((broadcast_to_unity send m st).1.unity_clients
        = st.unity_clients.filter (fun c => (send c).isOk)) ∧
    ((broadcast_to_unity send m st).1.messages_forwarded
        = st.messages_forwarded
            + st.unity_clients.countP (fun c => (send c).isOk)) ∧
    (∀ d ∈ st.unity_clients, (send d).isOk = true →
        d ∈ (broadcast_to_unity send m st).1.unity_clients) ∧
    (∀ e ∈ (broadcast_to_unity send m st).2,
        ∃ c, e = Event.sendAttempt c m) := by
  refine ⟨broadcast_browser_eq send m st,
    broadcast_unity_clients_eq send m st hnd,
    broadcast_forwarded_eq send m st, ?_, ?_⟩
  · intro d hd hok
    rw [broadcast_unity_clients_eq send m st hnd]
    exact List.mem_filter.2 ⟨hd, hok⟩
  · intro e he
    rw [broadcast_trace_eq] at he
    obtain ⟨c, _, rfl⟩ := List.mem_map.1 he
    exact ⟨c, rfl⟩

/-- Witness for C10 at a concrete input: state `stA` with client 2's send
failing. -/
theorem C10_broadcast_frame_witness :
    stA.unity_clients.Nodup ∧
    (((broadcast_to_unity sendFail2 "z" stA).1.browser_clients
        = stA.browser_clients) ∧
     ((broadcast_to_unity sendFail2 "z" stA).1.unity_clients
        = stA.unity_clients.filter (fun c => (sendFail2 c).isOk)) ∧
     ((broadcast_to_unity sendFail2 "z" stA).1.messages_forwarded
        = stA.messages_forwarded
            + stA.unity_clients.countP (fun c => (sendFail2 c).isOk)) ∧
     (∀ d ∈ stA.unity_clients, (sendFail2 d).isOk = true →
        d ∈ (broadcast_to_unity sendFail2 "z" stA).1.unity_clients) ∧
     (∀ e ∈ (broadcast_to_unity sendFail2 "z" stA).2,
        ∃ c, e = Event.sendAttempt c "z")) :=
  ⟨by decide, C10_broadcast_frame sendFail2 "z" stA (by decide)⟩

end Relay
